import Mathlib

/-!
Verification development for the deployment-config builder script
(`src/model/run.py` of the safe-deployment pipeline repository).

Python dictionaries with string keys and string values are embedded as
association lists in insertion order (`Dict`).  `dictSet` is a single
`d[k] = v` assignment, `dictUpdate a b` is Python's `dict(a, **b)` (copy
`a`, then assign every pair of `b` in order), and `dictOfPairs` is the
`dict(...)` constructor applied to a sequence of pairs.  `dlookup` is
subscript read, returning `none` where Python raises `KeyError`; the
fallible wrapper `dictGetE` materialises the `KeyError`.

External effects (the CodePipeline API, the filesystem, the SageMaker
image lookup) are passed in as explicit data or oracle functions, so the
script's control flow over their responses is embedded exactly.
-/

/-- Python exceptions that the script can raise on the paths modelled here. -/
inductive PyError where
  | keyError (key : String)
  | fileNotFoundError (path : String)
  | paramValidationError
deriving DecidableEq, Repr

/-- A Python `dict` with string keys and values, in insertion order. -/
abbrev Dict := List (String × String)

/-- Subscript read `d[key]`, as an `Option` (`none` where Python raises `KeyError`). -/
def dlookup : Dict → String → Option String
  | [], _ => none
  | (k, v) :: rest, key => if key == k then some v else dlookup rest key

/-- The assignment `d[k] = v`: an existing key keeps its position and gets the
new value, a fresh key is appended at the end (Python insertion order). -/
def dictSet : Dict → String → String → Dict
  | [], k, v => [(k, v)]
  | (k0, v0) :: rest, k, v =>
    if k == k0 then (k, v) :: rest else (k0, v0) :: dictSet rest k v

/-- Python `dict(a, **b)`: copy `a`, then assign each pair of `b` in order. -/
def dictUpdate (a b : Dict) : Dict :=
  b.foldl (fun d p => dictSet d p.1 p.2) a

/-- Python `dict(pairs)`: assign each pair in order into an empty dict. -/
def dictOfPairs (l : List (String × String)) : Dict :=
  l.foldl (fun d p => dictSet d p.1 p.2) []

/-- Subscript read that raises: `d[key]` as an `Except` (`KeyError` when absent). -/
def dictGetE (d : Dict) (key : String) : Except PyError String :=
  match dlookup d key with
  | some v => Except.ok v
  | none => Except.error (PyError.keyError key)

/-- The `"Parameters"`/`"Tags"` document returned by the config builders;
the Python return value is a dict with exactly these two top-level keys. -/
structure DeploymentConfig where
  Parameters : Dict
  Tags : Dict
deriving DecidableEq, Repr

/-- `get_dev_config` from `src/model/run.py` (lines 23-34), field for field. -/
def get_dev_config (model_name job_id role image_uri kms_key_id : String) :
    DeploymentConfig :=
  { Parameters :=
      [ ("ImageRepoUri", image_uri)
      , ("ModelName", model_name)
      , ("TrainJobId", job_id)
      , ("DeployRoleArn", role)
      , ("ModelVariant", "dev")
      , ("KmsKeyId", kms_key_id) ]
  , Tags := [ ("mlops:model-name", model_name), ("mlops:stage", "dev") ] }

/-- `get_prd_config` from `src/model/run.py` (lines 37-51): build the dev
config, then merge the production override dicts with `dict(_, **_)`. -/
def get_prd_config (model_name job_id role image_uri kms_key_id
    notification_arn : String) : DeploymentConfig :=
  let dev_config := get_dev_config model_name job_id role image_uri kms_key_id
  let prod_params : Dict :=
    [ ("ModelVariant", "prd")
    , ("ScheduleMetricName", "feature_baseline_drift_total_amount")
    , ("ScheduleMetricThreshold", "0.20")
    , ("NotificationArn", notification_arn) ]
  let prod_tags : Dict := [ ("mlops:stage", "prd") ]
  { Parameters := dictUpdate dev_config.Parameters prod_params
  , Tags := dictUpdate dev_config.Tags prod_tags }

/-- The production Parameters dict, fully evaluated: the dev keys in their
original order with `ModelVariant` overridden, then the three new keys
appended in the order they appear in the override dict. -/
theorem get_prd_config_eq (m j r img k arn : String) :
    get_prd_config m j r img k arn =
      { Parameters :=
          [ ("ImageRepoUri", img)
          , ("ModelName", m)
          , ("TrainJobId", j)
          , ("DeployRoleArn", r)
          , ("ModelVariant", "prd")
          , ("KmsKeyId", k)
          , ("ScheduleMetricName", "feature_baseline_drift_total_amount")
          , ("ScheduleMetricThreshold", "0.20")
          , ("NotificationArn", arn) ]
      , Tags := [ ("mlops:model-name", m), ("mlops:stage", "prd") ] } := rfl

/-- Claim C4: `get_dev_config` applied to model name `"m"`, job id `"j"`,
role `"r"`, image URI `"img"`, KMS key id `"k"` returns exactly the six
Parameters entries and the two Tags entries listed in the claim, with no
other keys (the association lists are exactly these entries, and the
returned document has exactly the two top-level fields of
`DeploymentConfig`). -/
theorem get_dev_config_concrete :
    get_dev_config "m" "j" "r" "img" "k" =
      { Parameters :=
          [ ("ImageRepoUri", "img")
          , ("ModelName", "m")
          , ("TrainJobId", "j")
          , ("DeployRoleArn", "r")
          , ("ModelVariant", "dev")
          , ("KmsKeyId", "k") ]
      , Tags := [ ("mlops:model-name", "m"), ("mlops:stage", "dev") ] } := rfl

/-- Claim C1: for every input, the production config's Parameters agrees with
the dev config's Parameters at every key outside
`ModelVariant, ScheduleMetricName, ScheduleMetricThreshold, NotificationArn`,
and differs from it at each of those four keys; its Tags agrees with the dev
Tags at every key other than `mlops:stage` and differs there; the key lists
witness that Parameters adds exactly the three new keys and Tags adds none
(and `DeploymentConfig` has exactly the two top-level fields, so no other
top-level field exists). -/
theorem prd_config_overrides_dev (m j r img k arn : String) :
    (∀ key, key ≠ "ModelVariant" → key ≠ "ScheduleMetricName" →
      key ≠ "ScheduleMetricThreshold" → key ≠ "NotificationArn" →
      dlookup (get_prd_config m j r img k arn).Parameters key =
        dlookup (get_dev_config m j r img k).Parameters key) ∧
    dlookup (get_prd_config m j r img k arn).Parameters "ModelVariant" ≠
      dlookup (get_dev_config m j r img k).Parameters "ModelVariant" ∧
    dlookup (get_prd_config m j r img k arn).Parameters "ScheduleMetricName" ≠
      dlookup (get_dev_config m j r img k).Parameters "ScheduleMetricName" ∧
    dlookup (get_prd_config m j r img k arn).Parameters "ScheduleMetricThreshold" ≠
      dlookup (get_dev_config m j r img k).Parameters "ScheduleMetricThreshold" ∧
    dlookup (get_prd_config m j r img k arn).Parameters "NotificationArn" ≠
      dlookup (get_dev_config m j r img k).Parameters "NotificationArn" ∧
    (∀ key, key ≠ "mlops:stage" →
      dlookup (get_prd_config m j r img k arn).Tags key =
        dlookup (get_dev_config m j r img k).Tags key) ∧
    dlookup (get_prd_config m j r img k arn).Tags "mlops:stage" ≠
      dlookup (get_dev_config m j r img k).Tags "mlops:stage" ∧
    (get_prd_config m j r img k arn).Parameters.map Prod.fst =
      (get_dev_config m j r img k).Parameters.map Prod.fst ++
        ["ScheduleMetricName", "ScheduleMetricThreshold", "NotificationArn"] ∧
    (get_prd_config m j r img k arn).Tags.map Prod.fst =
      (get_dev_config m j r img k).Tags.map Prod.fst := by
  refine ⟨?_, ?_, ?_, ?_, ?_, ?_, ?_, rfl, rfl⟩
  · intro key h1 h2 h3 h4
    simp [get_prd_config, get_dev_config, dictUpdate, dictSet, dlookup,
      beq_iff_eq, h1, h2, h3, h4]
  · simp [get_prd_config, get_dev_config, dictUpdate, dictSet, dlookup]
  · simp [get_prd_config, get_dev_config, dictUpdate, dictSet, dlookup]
  · simp [get_prd_config, get_dev_config, dictUpdate, dictSet, dlookup]
  · simp [get_prd_config, get_dev_config, dictUpdate, dictSet, dlookup]
  · intro key h1
    simp [get_prd_config, get_dev_config, dictUpdate, dictSet, dlookup,
      beq_iff_eq, h1]
  · simp [get_prd_config, get_dev_config, dictUpdate, dictSet, dlookup]

/-- Witness for C1 at concrete strings: the pass-through part at the
untouched key `KmsKeyId`, with the four disequality hypotheses discharged. -/
theorem prd_config_overrides_dev_witness :
    ("KmsKeyId" : String) ≠ "ModelVariant" ∧
    dlookup (get_prd_config "m" "j" "r" "img" "k" "arn:sns:x").Parameters "KmsKeyId" =
      dlookup (get_dev_config "m" "j" "r" "img" "k").Parameters "KmsKeyId" :=
  ⟨by decide,
    (prd_config_overrides_dev "m" "j" "r" "img" "k" "arn:sns:x").1 "KmsKeyId"
      (by decide) (by decide) (by decide) (by decide)⟩

/-- Claim C5: for every input, `get_prd_config` sets
`Parameters[ModelVariant] = "prd"`,
`Parameters[ScheduleMetricName] = "feature_baseline_drift_total_amount"`,
`Parameters[ScheduleMetricThreshold]` to the exact string `"0.20"` (the
value type of the embedded dict is `String`, so it is a string, not a
number), `Parameters[NotificationArn]` to the given ARN and
`Tags[mlops:stage] = "prd"`, while every other Parameters key and Tags key
passes through from the dev config unchanged. -/
theorem prd_config_field_values (m j r img k arn : String) :
    dlookup (get_prd_config m j r img k arn).Parameters "ModelVariant" =
      some "prd" ∧
    dlookup (get_prd_config m j r img k arn).Parameters "ScheduleMetricName" =
      some "feature_baseline_drift_total_amount" ∧
    dlookup (get_prd_config m j r img k arn).Parameters "ScheduleMetricThreshold" =
      some "0.20" ∧
    dlookup (get_prd_config m j r img k arn).Parameters "NotificationArn" =
      some arn ∧
    dlookup (get_prd_config m j r img k arn).Tags "mlops:stage" = some "prd" ∧
    (∀ key, key ≠ "ModelVariant" → key ≠ "ScheduleMetricName" →
      key ≠ "ScheduleMetricThreshold" → key ≠ "NotificationArn" →
      dlookup (get_prd_config m j r img k arn).Parameters key =
        dlookup (get_dev_config m j r img k).Parameters key) ∧
    (∀ key, key ≠ "mlops:stage" →
      dlookup (get_prd_config m j r img k arn).Tags key =
        dlookup (get_dev_config m j r img k).Tags key) := by
  refine ⟨rfl, rfl, rfl, ?_, rfl, ?_, ?_⟩
  · simp [get_prd_config, get_dev_config, dictUpdate, dictSet, dlookup]
  · intro key h1 h2 h3 h4
    simp [get_prd_config, get_dev_config, dictUpdate, dictSet, dlookup,
      beq_iff_eq, h1, h2, h3, h4]
  · intro key h1
    simp [get_prd_config, get_dev_config, dictUpdate, dictSet, dlookup,
      beq_iff_eq, h1]

/-- Witness for C5 at concrete strings: the threshold is the exact string
`"0.20"`, and the pass-through part holds at the key `ImageRepoUri`. -/
theorem prd_config_field_values_witness :
    dlookup (get_prd_config "m" "j" "r" "img" "k" "arn:sns:x").Parameters
        "ScheduleMetricThreshold" = some "0.20" ∧
    ("ImageRepoUri" : String) ≠ "ModelVariant" ∧
    dlookup (get_prd_config "m" "j" "r" "img" "k" "arn:sns:x").Parameters
        "ImageRepoUri" =
      dlookup (get_dev_config "m" "j" "r" "img" "k").Parameters "ImageRepoUri" :=
  ⟨(prd_config_field_values "m" "j" "r" "img" "k" "arn:sns:x").2.2.1,
    by decide,
    (prd_config_field_values "m" "j" "r" "img" "k" "arn:sns:x").2.2.2.2.2.1
      "ImageRepoUri" (by decide) (by decide) (by decide) (by decide)⟩

/-- The `latestExecution` sub-dict of an action state; the script only reads
its optional `externalExecutionId` field (checked with `in` before use). -/
structure ActionExecution where
  externalExecutionId : Option String
deriving DecidableEq, Repr

/-- One entry of a stage's `actionStates`; `latestExecution` may be absent
(the script checks `"latestExecution" in action`). -/
structure ActionState where
  latestExecution : Option ActionExecution
deriving DecidableEq, Repr

/-- The stage-level `latestExecution` sub-dict; `pipelineExecutionId` is read
by unchecked subscript, so it is optional here and its absence is a
`KeyError`. -/
structure StageExecution where
  pipelineExecutionId : Option String
deriving DecidableEq, Repr

/-- One entry of `get_pipeline_state`'s `stageStates`; the stage-level
`latestExecution` is read by unchecked subscript and may be absent. -/
structure StageState where
  actionStates : List ActionState
  latestExecution : Option StageExecution
deriving DecidableEq, Repr

/-- The condition of the `if` at lines 60-64 of `src/model/run.py`:
the action has a `latestExecution` with an `externalExecutionId` equal to
the given CodeBuild id. -/
def actionMatches (codebuild_id : String) (a : ActionState) : Bool :=
  match a.latestExecution with
  | some ex =>
    match ex.externalExecutionId with
    | some eid => eid == codebuild_id
    | none => false
  | none => false

/-- `get_pipeline_execution_id` from `src/model/run.py` (lines 54-65),
applied to the `stageStates` list of the `get_pipeline_state` response:
scan stages in order; in the first stage with a matching action, read
`stage["latestExecution"]["pipelineExecutionId"]` (each subscript can raise
`KeyError`); with no match anywhere, fall off the loop and return `None`. -/
def get_pipeline_execution_id (codebuild_id : String) :
    List StageState → Except PyError (Option String)
  | [] => Except.ok none
  | stage :: rest =>
    if stage.actionStates.any (actionMatches codebuild_id) then
      match stage.latestExecution with
      | none => Except.error (PyError.keyError "latestExecution")
      | some ex =>
        match ex.pipelineExecutionId with
        | none => Except.error (PyError.keyError "pipelineExecutionId")
        | some pid => Except.ok (some pid)
    else get_pipeline_execution_id codebuild_id rest

/-- Claim C2: when some stage contains an action whose latest execution's
`externalExecutionId` equals the build id (the first such stage being `s`),
and that stage carries a `latestExecution` with a `pipelineExecutionId`,
the scan returns exactly that pipeline execution id as the job id. -/
theorem get_pipeline_execution_id_match (codebuild_id : String)
    (stages : List StageState) (s : StageState) (ex : StageExecution)
    (pid : String)
    (hfind : stages.find? (fun t => t.actionStates.any (actionMatches codebuild_id)) = some s)
    (hex : s.latestExecution = some ex)
    (hpid : ex.pipelineExecutionId = some pid) :
    get_pipeline_execution_id codebuild_id stages = Except.ok (some pid) := by
  induction stages with
  | nil => simp [List.find?] at hfind
  | cons t rest ih =>
    by_cases h : t.actionStates.any (actionMatches codebuild_id) = true
    · rw [List.find?_cons_of_pos
        (p := fun u => u.actionStates.any (actionMatches codebuild_id)) rest h] at hfind
      cases hfind
      simp [get_pipeline_execution_id, h, hex, hpid]
    · rw [List.find?_cons_of_neg
        (p := fun u => u.actionStates.any (actionMatches codebuild_id)) rest
        (by simpa using h)] at hfind
      simp only [get_pipeline_execution_id, h, if_neg, Bool.false_eq_true,
        not_false_eq_true, if_false]
      exact ih hfind

/-- Witness for C2: a two-stage state whose second stage holds the matching
action, evaluated at concrete ids. -/
theorem get_pipeline_execution_id_match_witness :
    ([ StageState.mk [ActionState.mk none] (some (StageExecution.mk (some "exec-0")))
     , StageState.mk [ActionState.mk (some (ActionExecution.mk (some "build-1")))]
         (some (StageExecution.mk (some "exec-1"))) ].find?
        (fun t => t.actionStates.any (actionMatches "build-1")) =
      some (StageState.mk
        [ActionState.mk (some (ActionExecution.mk (some "build-1")))]
        (some (StageExecution.mk (some "exec-1"))))) ∧
    get_pipeline_execution_id "build-1"
      [ StageState.mk [ActionState.mk none] (some (StageExecution.mk (some "exec-0")))
      , StageState.mk [ActionState.mk (some (ActionExecution.mk (some "build-1")))]
          (some (StageExecution.mk (some "exec-1"))) ] =
      Except.ok (some "exec-1") :=
  ⟨by decide,
    get_pipeline_execution_id_match "build-1"
      [ StageState.mk [ActionState.mk none] (some (StageExecution.mk (some "exec-0")))
      , StageState.mk [ActionState.mk (some (ActionExecution.mk (some "build-1")))]
          (some (StageExecution.mk (some "exec-1"))) ]
      (StageState.mk [ActionState.mk (some (ActionExecution.mk (some "build-1")))]
        (some (StageExecution.mk (some "exec-1"))))
      (StageExecution.mk (some "exec-1")) "exec-1" (by decide) rfl rfl⟩

/-- Claim C6: when no stage contains an action whose latest execution's
`externalExecutionId` equals the build id, the scan falls off the loop and
returns Python's implicit `None` (modelled `Except.ok none`): the job id is
undefined and nothing is raised here. -/
theorem get_pipeline_execution_id_no_match (codebuild_id : String)
    (stages : List StageState)
    (h : ∀ s ∈ stages, ∀ a ∈ s.actionStates, actionMatches codebuild_id a = false) :
    get_pipeline_execution_id codebuild_id stages = Except.ok none := by
  induction stages with
  | nil => rfl
  | cons t rest ih =>
    have ht : t.actionStates.any (actionMatches codebuild_id) = false := by
      simp only [List.any_eq_false]
      intro a ha
      simp [h t (by simp) a ha]
    simp only [get_pipeline_execution_id, ht, Bool.false_eq_true, if_false]
    exact ih fun s hs a ha => h s (by simp [hs]) a ha

/-- Witness for C6: a state whose single action carries a different external
execution id, evaluated at concrete ids. -/
theorem get_pipeline_execution_id_no_match_witness :
    (∀ s ∈ [ StageState.mk
        [ActionState.mk (some (ActionExecution.mk (some "build-2")))]
        (some (StageExecution.mk (some "exec-1"))) ],
      ∀ a ∈ s.actionStates, actionMatches "build-1" a = false) ∧
    get_pipeline_execution_id "build-1"
      [ StageState.mk [ActionState.mk (some (ActionExecution.mk (some "build-2")))]
          (some (StageExecution.mk (some "exec-1"))) ] = Except.ok none :=
  ⟨by decide, get_pipeline_execution_id_no_match "build-1" _ (by decide)⟩

/-- Claim C9: on a concrete pipeline state whose only stage contains an
action matching the build id but carries no stage-level `latestExecution`,
the scan raises a `KeyError` on `"latestExecution"` instead of returning a
job id. -/
theorem get_pipeline_execution_id_missing_stage_execution :
    get_pipeline_execution_id "build-1"
      [ StageState.mk [ActionState.mk (some (ActionExecution.mk (some "build-1")))]
          none ] =
      Except.error (PyError.keyError "latestExecution") := rfl

/-- Claim C10: when the stages before `s` contain no matching action and `s`
does, the scan returns the pipeline execution id of `s`'s latest execution,
whatever stages (including further matches) follow `s`: the first match in
stage order wins and all later matches are ignored (the returned id is
stage-level, so action order inside `s` cannot affect it). -/
theorem get_pipeline_execution_id_first_match (codebuild_id : String)
    (pre post : List StageState) (s : StageState) (ex : StageExecution)
    (pid : String)
    (hpre : ∀ t ∈ pre, t.actionStates.any (actionMatches codebuild_id) = false)
    (hs : s.actionStates.any (actionMatches codebuild_id) = true)
    (hex : s.latestExecution = some ex)
    (hpid : ex.pipelineExecutionId = some pid) :
    get_pipeline_execution_id codebuild_id (pre ++ s :: post) =
      Except.ok (some pid) := by
  induction pre with
  | nil => simp [get_pipeline_execution_id, hs, hex, hpid]
  | cons t rest ih =>
    have ht : t.actionStates.any (actionMatches codebuild_id) = false :=
      hpre t (by simp)
    simp only [List.cons_append, get_pipeline_execution_id, ht,
      Bool.false_eq_true, if_false]
    exact ih fun u hu => hpre u (by simp [hu])

/-- Witness for C10: two matching stages with distinct pipeline execution
ids; the scan returns the first stage's id, ignoring the later match. -/
theorem get_pipeline_execution_id_first_match_witness :
    get_pipeline_execution_id "build-1"
      ([] ++ StageState.mk
          [ActionState.mk (some (ActionExecution.mk (some "build-1")))]
          (some (StageExecution.mk (some "exec-1"))) ::
        [ StageState.mk [ActionState.mk (some (ActionExecution.mk (some "build-1")))]
            (some (StageExecution.mk (some "exec-2"))) ]) =
      Except.ok (some "exec-1") :=
  get_pipeline_execution_id_first_match "build-1" [] _ _
    (StageExecution.mk (some "exec-1")) "exec-1" (by decide) (by decide) rfl rfl

/-- Reading an assignment: `dictSet` only changes the assigned key. -/
theorem dlookup_dictSet (d : Dict) (k v key : String) :
    dlookup (dictSet d k v) key = if key = k then some v else dlookup d key := by
  induction d with
  | nil => by_cases h : key = k <;> simp [dictSet, dlookup, beq_iff_eq, h]
  | cons p rest ih =>
    obtain ⟨k0, v0⟩ := p
    by_cases hk : k = k0
    · subst hk
      by_cases h : key = k <;> simp [dictSet, dlookup, beq_iff_eq, h]
    · by_cases h : key = k0
      · subst h
        simp [dictSet, dlookup, beq_iff_eq, hk, Ne.symm hk]
      · simp [dictSet, dlookup, beq_iff_eq, hk, h, ih]

/-- Folding assignments whose keys all differ from `key` leaves `key` alone. -/
theorem dlookup_foldl_of_not_mem (l : List (String × String)) (d : Dict)
    (key : String) (h : ∀ p ∈ l, p.1 ≠ key) :
    dlookup (l.foldl (fun acc p => dictSet acc p.1 p.2) d) key = dlookup d key := by
  induction l generalizing d with
  | nil => rfl
  | cons p rest ih =>
    simp only [List.foldl_cons]
    rw [ih _ fun q hq => h q (by simp [hq]), dlookup_dictSet,
      if_neg (Ne.symm (h p (by simp)))]

/-- Folding assignments with pairwise distinct keys makes each written pair
readable back. -/
theorem dlookup_foldl_mem (l : List (String × String)) (d : Dict)
    (k v : String) (hnd : (l.map Prod.fst).Nodup) (hm : (k, v) ∈ l) :
    dlookup (l.foldl (fun acc p => dictSet acc p.1 p.2) d) k = some v := by
  induction l generalizing d with
  | nil => simp at hm
  | cons p rest ih =>
    simp only [List.map_cons, List.nodup_cons] at hnd
    obtain ⟨hp, hrest⟩ := hnd
    simp only [List.foldl_cons]
    rcases List.mem_cons.mp hm with heq | hmem
    · subst heq
      have hnot : ∀ q ∈ rest, q.1 ≠ k := by
        intro q hq hqe
        have hmm : q.1 ∈ List.map Prod.fst rest :=
          List.mem_map_of_mem Prod.fst hq
        rw [hqe] at hmm
        exact hp hmm
      rw [dlookup_foldl_of_not_mem rest (dictSet d k v) k hnot, dlookup_dictSet,
        if_pos rfl]
    · exact ih (dictSet d p.1 p.2) hrest hmem

/-- One element of the `artifactRevisions` array of the
`get_pipeline_execution` response; the script reads its `name` and
`revisionId` fields. -/
structure ArtifactRevision where
  name : String
  revisionId : String
deriving DecidableEq, Repr

/-- `get_pipeline_revisions` from `src/model/run.py` (lines 68-75), applied
to the `artifactRevisions` array of the API response: the dict built from
the `(name, revisionId)` pairs. -/
def get_pipeline_revisions (revs : List ArtifactRevision) : Dict :=
  dictOfPairs (revs.map fun r => (r.name, r.revisionId))

/-- Lines 109-110 of `src/model/run.py`: read
`revisions["ModelSourceOutput"]` as the git commit id, then
`revisions["DataSourceOutput"]` as the data version id; either subscript
raises `KeyError` when the name is absent. -/
def extractRevisionIds (revs : List ArtifactRevision) :
    Except PyError (String × String) :=
  match dictGetE (get_pipeline_revisions revs) "ModelSourceOutput" with
  | Except.error e => Except.error e
  | Except.ok commit =>
    match dictGetE (get_pipeline_revisions revs) "DataSourceOutput" with
    | Except.error e => Except.error e
    | Except.ok dv => Except.ok (commit, dv)

/-- Claim C7: `get_pipeline_revisions` maps each artifact revision's name to
its `revisionId` (for distinct names); the commit id is the revision keyed
`ModelSourceOutput` and the data version id the one keyed
`DataSourceOutput`, and if either name is absent the run fails with a
`KeyError` on that name. -/
theorem get_pipeline_revisions_spec (revs : List ArtifactRevision) :
    ((revs.map ArtifactRevision.name).Nodup →
      ∀ r ∈ revs,
        dlookup (get_pipeline_revisions revs) r.name = some r.revisionId) ∧
    (∀ commit dv,
      dlookup (get_pipeline_revisions revs) "ModelSourceOutput" = some commit →
      dlookup (get_pipeline_revisions revs) "DataSourceOutput" = some dv →
      extractRevisionIds revs = Except.ok (commit, dv)) ∧
    (dlookup (get_pipeline_revisions revs) "ModelSourceOutput" = none →
      extractRevisionIds revs =
        Except.error (PyError.keyError "ModelSourceOutput")) ∧
    (∀ commit,
      dlookup (get_pipeline_revisions revs) "ModelSourceOutput" = some commit →
      dlookup (get_pipeline_revisions revs) "DataSourceOutput" = none →
      extractRevisionIds revs =
        Except.error (PyError.keyError "DataSourceOutput")) := by
  refine ⟨?_, ?_, ?_, ?_⟩
  · intro hnd r hr
    unfold get_pipeline_revisions dictOfPairs
    apply dlookup_foldl_mem
    · simpa [List.map_map, Function.comp] using hnd
    · exact List.mem_map_of_mem (fun r => (r.name, r.revisionId)) hr
  · intro commit dv h1 h2
    simp [extractRevisionIds, dictGetE, h1, h2]
  · intro h1
    simp [extractRevisionIds, dictGetE, h1]
  · intro commit h1 h2
    simp [extractRevisionIds, dictGetE, h1, h2]

/-- Witness for C7 on a concrete two-revision response: the name map reads
back, and both ids are extracted. -/
theorem get_pipeline_revisions_spec_witness :
    (([ ArtifactRevision.mk "ModelSourceOutput" "c1"
      , ArtifactRevision.mk "DataSourceOutput" "d1" ].map
        ArtifactRevision.name).Nodup) ∧
    dlookup (get_pipeline_revisions
      [ ArtifactRevision.mk "ModelSourceOutput" "c1"
      , ArtifactRevision.mk "DataSourceOutput" "d1" ]) "ModelSourceOutput" =
      some "c1" ∧
    extractRevisionIds
      [ ArtifactRevision.mk "ModelSourceOutput" "c1"
      , ArtifactRevision.mk "DataSourceOutput" "d1" ] =
      Except.ok ("c1", "d1") :=
  ⟨by decide,
    (get_pipeline_revisions_spec
      [ ArtifactRevision.mk "ModelSourceOutput" "c1"
      , ArtifactRevision.mk "DataSourceOutput" "d1" ]).1 (by decide)
      (ArtifactRevision.mk "ModelSourceOutput" "c1") (by decide),
    (get_pipeline_revisions_spec
      [ ArtifactRevision.mk "ModelSourceOutput" "c1"
      , ArtifactRevision.mk "DataSourceOutput" "d1" ]).2.1 "c1" "d1"
      (by decide) (by decide)⟩

/-- The parsed `imageDetail.json` manifest; the script reads its `ImageURI`
field by unchecked subscript, so the field is optional here. -/
structure ImageDetail where
  ImageURI : Option String
deriving DecidableEq, Repr

/-- `os.path.join` for the simple relative-path uses in the script. -/
def pathJoin (dir file : String) : String := dir ++ "/" ++ file

/-- Python truthiness of the optional `--ecr-dir` argument: `None` and the
empty string are falsy. -/
def truthyStr : Option String → Bool
  | none => false
  | some s => !(s == "")

/-- `get_training_image` from `src/model/run.py` (lines 20-21):
`sagemaker.image_uris.retrieve` is an external library lookup, passed in as
the oracle `retrieve`; the script fixes the framework `"xgboost"` and the
version `"latest"`. -/
def get_training_image (retrieve : String → String → String → String)
    (region : String) : String :=
  retrieve region "xgboost" "latest"

/-- Lines 97-103 of `src/model/run.py`: if `ecr_dir` is truthy, `open` the
manifest at `ecr_dir/imageDetail.json` (raising `FileNotFoundError` when the
filesystem `manifest` has no file there) and read its `ImageURI` field
(raising `KeyError` when absent); otherwise call `get_training_image` for
the current region. -/
def resolveImage (retrieve : String → String → String → String)
    (manifest : String → Option ImageDetail) (region : String)
    (ecr_dir : Option String) : Except PyError String :=
  if truthyStr ecr_dir then
    match manifest (pathJoin (ecr_dir.getD "") "imageDetail.json") with
    | none =>
      Except.error
        (PyError.fileNotFoundError (pathJoin (ecr_dir.getD "") "imageDetail.json"))
    | some detail =>
      match detail.ImageURI with
      | none => Except.error (PyError.keyError "ImageURI")
      | some uri => Except.ok uri
  else Except.ok (get_training_image retrieve region)

/-- Counterexample to claim C3: with the manifest path supplied (`ecr_dir =
some "ecr"`) but no manifest file on the filesystem, the run raises
`FileNotFoundError` and does not return the default managed image URI, as
the claim's "otherwise" branch asserts. -/
theorem resolveImage_missing_file_not_default :
    resolveImage (fun region framework version =>
        region ++ "/" ++ framework ++ ":" ++ version)
      (fun _ => none) "us-east-1" (some "ecr") =
      Except.error (PyError.fileNotFoundError "ecr/imageDetail.json") ∧
    resolveImage (fun region framework version =>
        region ++ "/" ++ framework ++ ":" ++ version)
      (fun _ => none) "us-east-1" (some "ecr") ≠
      Except.ok (get_training_image (fun region framework version =>
        region ++ "/" ++ framework ++ ":" ++ version) "us-east-1") :=
  ⟨rfl, fun h => Except.noConfusion h⟩

/-- Claim C3 as amended: if a truthy manifest path is supplied and the
manifest file exists with an `ImageURI` field, that field is returned; if
the path is not supplied (or empty), the default managed image URI for the
region and the fixed `xgboost`/`latest` pair is returned; if the path is
supplied but the file is absent, the run fails with `FileNotFoundError`
rather than falling back to the default. -/
theorem resolveImage_spec (retrieve : String → String → String → String)
    (manifest : String → Option ImageDetail) (region : String)
    (ecr_dir : Option String) :
    (∀ dir detail uri, ecr_dir = some dir → dir ≠ "" →
      manifest (pathJoin dir "imageDetail.json") = some detail →
      detail.ImageURI = some uri →
      resolveImage retrieve manifest region ecr_dir = Except.ok uri) ∧
    (truthyStr ecr_dir = false →
      resolveImage retrieve manifest region ecr_dir =
        Except.ok (get_training_image retrieve region)) ∧
    (∀ dir, ecr_dir = some dir → dir ≠ "" →
      manifest (pathJoin dir "imageDetail.json") = none →
      resolveImage retrieve manifest region ecr_dir =
        Except.error
          (PyError.fileNotFoundError (pathJoin dir "imageDetail.json"))) := by
  refine ⟨?_, ?_, ?_⟩
  · intro dir detail uri hdir hne hman huri
    subst hdir
    simp [resolveImage, truthyStr, hne, hman, huri]
  · intro hfalse
    simp [resolveImage, hfalse]
  · intro dir hdir hne hman
    subst hdir
    simp [resolveImage, truthyStr, hne, hman]

/-- Witness for the amended C3 at concrete inputs: a present manifest is
read, an unsupplied path falls back to the managed image, and a supplied
path with no file fails. -/
theorem resolveImage_spec_witness :
    resolveImage (fun region framework version =>
        region ++ "/" ++ framework ++ ":" ++ version)
      (fun p => if p == "ecr/imageDetail.json"
        then some (ImageDetail.mk (some "123.dkr.ecr/img:1")) else none)
      "us-east-1" (some "ecr") = Except.ok "123.dkr.ecr/img:1" ∧
    resolveImage (fun region framework version =>
        region ++ "/" ++ framework ++ ":" ++ version)
      (fun _ => none) "us-east-1" none =
      Except.ok "us-east-1/xgboost:latest" :=
  ⟨(resolveImage_spec (fun region framework version =>
        region ++ "/" ++ framework ++ ":" ++ version)
      (fun p => if p == "ecr/imageDetail.json"
        then some (ImageDetail.mk (some "123.dkr.ecr/img:1")) else none)
      "us-east-1" (some "ecr")).1 "ecr" (ImageDetail.mk (some "123.dkr.ecr/img:1"))
      "123.dkr.ecr/img:1" rfl (by decide) (by decide) rfl,
    (resolveImage_spec (fun region framework version =>
        region ++ "/" ++ framework ++ ":" ++ version)
      (fun _ => none) "us-east-1" none).2.1 rfl⟩

/-- A scalar JSON value as loaded from `hyperparameters.json`. -/
inductive JVal where
  | jstr (s : String)
  | jint (n : Int)
  | jbool (b : Bool)
  | jnull
deriving DecidableEq, Repr

/-- Python `str(...)` on a loaded JSON scalar, as applied by the
`hyperparameters[i] = str(hyperparameters[i])` loop. -/
def JVal.pyStr : JVal → String
  | JVal.jstr s => s
  | JVal.jint n => toString n
  | JVal.jbool b => if b then "True" else "False"
  | JVal.jnull => "None"

/-- The body of `main` from `src/model/run.py` (lines 93-143), with its
environment passed in explicitly: `region` (line 94), the image-URI
resolution (lines 97-103), the job-id scan over the pipeline state
(line 107; a `None` job id is then rejected by boto3 parameter validation
when passed as `pipelineExecutionId`), the artifact revisions and the two
revision reads (lines 108-110), the output-data strings (lines 116-119),
the optional `hyperparameters.json` load with `str` coercion (lines
123-128, read at `data_dir/hyperparameters.json` from the `hyperfs` view
of the data directory), and finally the dev and prd configs written to the
two output files (lines 136-143), returned here as the pair of documents. -/
def mainRun (region : String) (retrieve : String → String → String → String)
    (manifest : String → Option ImageDetail)
    (pipelineState : String → List StageState)
    (pipelineExecution : String → String → Except PyError (List ArtifactRevision))
    (hyperfs : String → Option (List (String × JVal)))
    (codebuild_id pipeline_name model_name deploy_role sagemaker_bucket
      data_dir : String) (ecr_dir : Option String)
    (kms_key_id notification_arn : String) :
    Except PyError (DeploymentConfig × DeploymentConfig) := do
  let image_uri ← resolveImage retrieve manifest region ecr_dir
  let jobOpt ← get_pipeline_execution_id codebuild_id (pipelineState pipeline_name)
  let job_id ← match jobOpt with
    | none => Except.error PyError.paramValidationError
    | some j => Except.ok j
  let revs ← pipelineExecution pipeline_name job_id
  let revisions := get_pipeline_revisions revs
  let _git_commit_id ← dictGetE revisions "ModelSourceOutput"
  let _data_version_id ← dictGetE revisions "DataSourceOutput"
  let _output_data : Dict :=
    [ ("ModelOutputUri", "s3://" ++ sagemaker_bucket ++ "/" ++ model_name)
    , ("BaselineOutputUri",
        "s3://" ++ sagemaker_bucket ++ "/" ++ model_name ++
          "/monitoring/baseline/mlops-" ++ model_name ++ "-pbl-" ++ job_id) ]
  let _hyperparameters : Dict :=
    match hyperfs (pathJoin data_dir "hyperparameters.json") with
    | none => []
    | some m => m.map fun p => (p.1, JVal.pyStr p.2)
  let dev := get_dev_config model_name job_id deploy_role image_uri kms_key_id
  let prd := get_prd_config model_name job_id deploy_role image_uri kms_key_id
    notification_arn
  return (dev, prd)

/-- Claim C8: two runs of `main` that differ only in the contents (or
presence) of `hyperparameters.json` in the data directory — `hyperfs1`
versus `hyperfs2`, everything else identical — produce identical results,
in particular the identical pair of dev and prd deployment configs: the
loaded, string-coerced hyperparameters never influence either output. -/
theorem mainRun_ignores_hyperparameters (region : String)
    (retrieve : String → String → String → String)
    (manifest : String → Option ImageDetail)
    (pipelineState : String → List StageState)
    (pipelineExecution : String → String → Except PyError (List ArtifactRevision))
    (hyperfs1 hyperfs2 : String → Option (List (String × JVal)))
    (codebuild_id pipeline_name model_name deploy_role sagemaker_bucket
      data_dir : String) (ecr_dir : Option String)
    (kms_key_id notification_arn : String) :
    mainRun region retrieve manifest pipelineState pipelineExecution hyperfs1
      codebuild_id pipeline_name model_name deploy_role sagemaker_bucket
      data_dir ecr_dir kms_key_id notification_arn =
    mainRun region retrieve manifest pipelineState pipelineExecution hyperfs2
      codebuild_id pipeline_name model_name deploy_role sagemaker_bucket
      data_dir ecr_dir kms_key_id notification_arn := rfl
